import Mathlib

/-!
Verification of the per-frame heuristic classifiers, the anomaly detector and
the session report aggregator of a video-analysis application.

Shallow embedding conventions:
* normalized landmark coordinates are rationals (`ℚ`); the source manipulates
  Python floats, but every threshold comparison and percentage here is modelled
  with exact rational arithmetic;
* only the coordinates actually read by the classifiers are carried around
  (the y components of the points extracted in the source);
* labels are the exact strings returned by the source.
-/

/-- Python's `abs` on an exact rational. -/
def pyAbs (q : ℚ) : ℚ := if q < 0 then -q else q

/-- The y-coordinates (normalized, smaller = higher in the frame) of the three
facial-mesh points read by `EmotionDetectionModule.analyze_emotion`
(`app/emotion_detection.py`, landmark indices 61, 291 and 13). -/
structure FaceLandmarks where
  mouthLeftY : ℚ
  mouthRightY : ℚ
  noseTipY : ℚ

/-- `mouth_height` of `app/emotion_detection.py` lines 57-58:
`mouth_y = (mouth_left.y + mouth_right.y) / 2`, then
`mouth_height = abs(mouth_y - nose_tip.y)`. -/
def mouth_height (f : FaceLandmarks) : ℚ :=
  pyAbs ((f.mouthLeftY + f.mouthRightY) / 2 - f.noseTipY)

/-- `EmotionDetectionModule.analyze_emotion` (`app/emotion_detection.py`
lines 61-68).  Label strings are the source's Portuguese ones:
`Neutro` = Neutral, `Feliz` = Happy, `Surpreso` = Surprised, `Triste` = Sad. -/
def analyze_emotion (f : FaceLandmarks) : String :=
  if mouth_height f < 2/100 then "Neutro"
  else if mouth_height f < 4/100 then "Feliz"
  else if mouth_height f < 6/100 then "Surpreso"
  else "Triste"

/-- The per-frame emotion step of `EmotionDetectionModule.process_frame`
(`app/emotion_detection.py` lines 87-100): when the external detector yields no
facial-mesh landmark set (`results.multi_face_landmarks` empty) the classifier
is not consulted and the frame has no emotion label; otherwise
`analyze_emotion` is applied to the landmark set (which then carries all of the
required points). -/
def emotionOfFrame : Option FaceLandmarks → Option String
  | none => none
  | some f => some (analyze_emotion f)

/-- The y-coordinates of the seven pose points read by
`ActivityRecognitionModule.analyze_activity` (`app/activity_recognition.py`
lines 57-63). -/
structure PoseLandmarks where
  noseY : ℚ
  leftShoulderY : ℚ
  rightShoulderY : ℚ
  leftHipY : ℚ
  rightHipY : ℚ
  leftWristY : ℚ
  rightWristY : ℚ

/-- `shoulder_y = (left_shoulder.y + right_shoulder.y) / 2`
(`app/activity_recognition.py` line 66). -/
def shoulder_y (p : PoseLandmarks) : ℚ :=
  (p.leftShoulderY + p.rightShoulderY) / 2

/-- `hip_y = (left_hip.y + right_hip.y) / 2`
(`app/activity_recognition.py` line 67). -/
def hip_y (p : PoseLandmarks) : ℚ :=
  (p.leftHipY + p.rightHipY) / 2

/-- `torso_length = abs(shoulder_y - hip_y)`
(`app/activity_recognition.py` line 78). -/
def torso_length (p : PoseLandmarks) : ℚ :=
  pyAbs (shoulder_y p - hip_y p)

/-- `ActivityRecognitionModule.analyze_activity`
(`app/activity_recognition.py` lines 70-85). -/
def analyze_activity (p : PoseLandmarks) : String :=
  if p.leftWristY < shoulder_y p - 1/10 ∨ p.rightWristY < shoulder_y p - 1/10 then
    if p.leftWristY < p.noseY ∨ p.rightWristY < p.noseY then "waving"
    else "raising_hand"
  else if torso_length p < 2/10 then "sitting"
  else if torso_length p > 25/100 then "standing"
  else "unknown"

/-- C1: for every facial landmark input, with
`mouth_height = |avg(left_corner.y, right_corner.y) − nose_tip.y|` the
classifier returns Neutral (`Neutro`) when `mouth_height < 0.02`, Happy
(`Feliz`) when `0.02 ≤ mouth_height < 0.04`, Surprised (`Surpreso`) when
`0.04 ≤ mouth_height < 0.06` and Sad (`Triste`) otherwise; in particular a
`mouth_height` of exactly 0.02 yields Happy, exactly 0.04 yields Surprised and
exactly 0.06 yields Sad (the three closed conjuncts evaluate the classifier at
inputs whose `mouth_height` is exactly the boundary value). -/
theorem analyze_emotion_bands (f : FaceLandmarks) :
    (mouth_height f < 2/100 → analyze_emotion f = "Neutro")
  ∧ (2/100 ≤ mouth_height f → mouth_height f < 4/100 → analyze_emotion f = "Feliz")
  ∧ (4/100 ≤ mouth_height f → mouth_height f < 6/100 → analyze_emotion f = "Surpreso")
  ∧ (6/100 ≤ mouth_height f → analyze_emotion f = "Triste")
  ∧ (mouth_height ⟨13/25, 13/25, 1/2⟩ = 2/100
      ∧ analyze_emotion ⟨13/25, 13/25, 1/2⟩ = "Feliz")
  ∧ (mouth_height ⟨27/50, 27/50, 1/2⟩ = 4/100
      ∧ analyze_emotion ⟨27/50, 27/50, 1/2⟩ = "Surpreso")
  ∧ (mouth_height ⟨14/25, 14/25, 1/2⟩ = 6/100
      ∧ analyze_emotion ⟨14/25, 14/25, 1/2⟩ = "Triste") := by
  refine ⟨fun h1 => ?_, fun h1 h2 => ?_, fun h1 h2 => ?_, fun h1 => ?_,
    ⟨by norm_num [mouth_height, pyAbs], by norm_num [analyze_emotion, mouth_height, pyAbs]⟩,
    ⟨by norm_num [mouth_height, pyAbs], by norm_num [analyze_emotion, mouth_height, pyAbs]⟩,
    ⟨by norm_num [mouth_height, pyAbs], by norm_num [analyze_emotion, mouth_height, pyAbs]⟩⟩ <;>
  · unfold analyze_emotion
    split_ifs <;> first | rfl | (exfalso; linarith)

/-- Witness for `analyze_emotion_bands`: the Happy band at a concrete input of
`mouth_height` exactly 0.02. -/
theorem analyze_emotion_bands_witness :
    (2:ℚ)/100 ≤ mouth_height ⟨13/25, 13/25, 1/2⟩
  ∧ mouth_height ⟨13/25, 13/25, 1/2⟩ < 4/100
  ∧ analyze_emotion ⟨13/25, 13/25, 1/2⟩ = "Feliz" :=
  ⟨by norm_num [mouth_height, pyAbs], by norm_num [mouth_height, pyAbs],
    (analyze_emotion_bands ⟨13/25, 13/25, 1/2⟩).2.1
      (by norm_num [mouth_height, pyAbs]) (by norm_num [mouth_height, pyAbs])⟩

/-- C2: when the facial landmark input is missing (the only code path on which
any of the three required points can be absent: the external mesh detector
returned nothing) the per-frame emotion step yields null rather than raising;
and for every present input the step is total, returning one of the four
labels — being a total Lean function, it can never raise. -/
theorem emotionOfFrame_never_raises :
    emotionOfFrame none = none
  ∧ ∀ f, emotionOfFrame (some f) = some (analyze_emotion f)
      ∧ (analyze_emotion f = "Neutro" ∨ analyze_emotion f = "Feliz"
          ∨ analyze_emotion f = "Surpreso" ∨ analyze_emotion f = "Triste") := by
  refine ⟨rfl, fun f => ⟨rfl, ?_⟩⟩
  unfold analyze_emotion
  split_ifs <;> simp

/-- C3: whenever at least one wrist is raised (`wrist.y < shoulder_y − 0.1`),
the classifier returns Waving (`waving`) exactly when some raised wrist is
additionally above the nose (`wrist.y < nose.y`), and RaisingHand
(`raising_hand`) otherwise; the torso-length rule is never consulted: the
result does not depend on the hip coordinates. -/
theorem analyze_activity_raised (p : PoseLandmarks)
    (hr : p.leftWristY < shoulder_y p - 1/10 ∨ p.rightWristY < shoulder_y p - 1/10) :
    (analyze_activity p =
      if (p.leftWristY < shoulder_y p - 1/10 ∧ p.leftWristY < p.noseY)
          ∨ (p.rightWristY < shoulder_y p - 1/10 ∧ p.rightWristY < p.noseY)
        then "waving" else "raising_hand")
  ∧ ∀ a b : ℚ,
      analyze_activity { p with leftHipY := a, rightHipY := b } = analyze_activity p := by
  constructor
  · unfold analyze_activity
    rw [if_pos hr]
    by_cases hc : (p.leftWristY < shoulder_y p - 1/10 ∧ p.leftWristY < p.noseY)
        ∨ (p.rightWristY < shoulder_y p - 1/10 ∧ p.rightWristY < p.noseY)
    · rw [if_pos hc, if_pos]
      rcases hc with ⟨_, h⟩ | ⟨_, h⟩
      · exact Or.inl h
      · exact Or.inr h
    · rw [if_neg hc, if_neg]
      intro hn
      apply hc
      rcases hn with hl | hrw
      · by_cases hlr : p.leftWristY < shoulder_y p - 1/10
        · exact Or.inl ⟨hlr, hl⟩
        · rcases hr with h | h
          · exact absurd h hlr
          · exact Or.inr ⟨h, by linarith [not_lt.mp hlr]⟩
      · by_cases hrr : p.rightWristY < shoulder_y p - 1/10
        · exact Or.inr ⟨hrr, hrw⟩
        · rcases hr with h | h
          · exact Or.inl ⟨h, by linarith [not_lt.mp hrr]⟩
          · exact absurd h hrr
  · intro a b
    have hs : shoulder_y { p with leftHipY := a, rightHipY := b } = shoulder_y p := rfl
    unfold analyze_activity
    rw [hs]
    rw [if_pos hr, if_pos hr]

/-- Witness for `analyze_activity_raised`: a pose whose left wrist is above
the shoulder line by more than the margin and above the nose is classified
`waving`. -/
theorem analyze_activity_raised_witness :
    analyze_activity ⟨3/10, 1/2, 1/2, 9/10, 9/10, 2/10, 1/2⟩ = "waving" := by
  have h := (analyze_activity_raised ⟨3/10, 1/2, 1/2, 9/10, 9/10, 2/10, 1/2⟩
    (by left; norm_num [shoulder_y])).1
  rw [h, if_pos (by left; exact ⟨by norm_num [shoulder_y], by norm_num⟩)]

/-- C4: when neither wrist is raised, the classifier returns Sitting
(`sitting`) when `torso_length < 0.2`, Standing (`standing`) when
`torso_length > 0.25`, and Unknown (`unknown`) on the whole closed interval
`[0.2, 0.25]`, both endpoints included. -/
theorem analyze_activity_torso (p : PoseLandmarks)
    (hnr : ¬(p.leftWristY < shoulder_y p - 1/10 ∨ p.rightWristY < shoulder_y p - 1/10)) :
    (torso_length p < 2/10 → analyze_activity p = "sitting")
  ∧ (torso_length p > 25/100 → analyze_activity p = "standing")
  ∧ (2/10 ≤ torso_length p → torso_length p ≤ 25/100 → analyze_activity p = "unknown") := by
  unfold analyze_activity
  rw [if_neg hnr]
  refine ⟨fun h => by rw [if_pos h], fun h => ?_, fun h1 h2 => ?_⟩
  · rw [if_neg (not_lt.mpr (by linarith)), if_pos h]
  · rw [if_neg (not_lt.mpr h1), if_neg (not_lt.mpr h2)]

/-- Witness for `analyze_activity_torso`: poses with `torso_length` exactly
0.2 and exactly 0.25 (and no raised wrist) are both classified `unknown`. -/
theorem analyze_activity_torso_witness :
    analyze_activity ⟨3/10, 1/2, 1/2, 7/10, 7/10, 1/2, 1/2⟩ = "unknown"
  ∧ analyze_activity ⟨3/10, 1/2, 1/2, 3/4, 3/4, 1/2, 1/2⟩ = "unknown" :=
  ⟨(analyze_activity_torso ⟨3/10, 1/2, 1/2, 7/10, 7/10, 1/2, 1/2⟩
      (by norm_num [shoulder_y])).2.2
      (by norm_num [torso_length, shoulder_y, hip_y, pyAbs])
      (by norm_num [torso_length, shoulder_y, hip_y, pyAbs]),
   (analyze_activity_torso ⟨3/10, 1/2, 1/2, 3/4, 3/4, 1/2, 1/2⟩
      (by norm_num [shoulder_y])).2.2
      (by norm_num [torso_length, shoulder_y, hip_y, pyAbs])
      (by norm_num [torso_length, shoulder_y, hip_y, pyAbs])⟩

/-- An anomaly record as built by `VideoAnalyzer.detectar_anomalias` and
appended by `VideoAnalysisReport.registrar_anomalia` (`main_report.py`
lines 57-64, 228-260); the wall-clock timestamp string attached on
registration is not modelled. -/
structure Anomalia where
  tipo : String
  descricao : String
  frame : Nat
deriving DecidableEq

/-- The per-frame information dictionary consumed by
`VideoAnalyzer.detectar_anomalias` (`main_report.py` lines 293-297):
`num_faces`, `emocao` (possibly `None`), `atividade` (possibly `None`). -/
structure FrameInfo where
  num_faces : Nat
  emocao : Option String
  atividade : Option String

/-- `VideoAnalyzer.detectar_anomalias` (`main_report.py` lines 228-260).
Python's `x in ['Triste', 'Raiva']` on an optional value is the disjunction of
the equalities with each list element (`None` is in neither list). -/
def detectar_anomalias (fi : FrameInfo) (frame_numero : Nat) : List Anomalia :=
  (if fi.num_faces > 3 then
    [⟨"Múltiplas Faces",
      toString fi.num_faces ++ " faces detectadas simultaneamente", frame_numero⟩]
   else [])
  ++ (if fi.emocao = some "Triste" ∨ fi.emocao = some "Raiva" then
    [⟨"Emoção Negativa",
      "Emoção " ++ fi.emocao.getD "" ++ " detectada", frame_numero⟩]
   else [])
  ++ (if (fi.atividade = some "unknown" ∨ fi.atividade = some "Desconhecido")
        ∧ frame_numero % 100 = 0 then
    [⟨"Atividade Não Identificada",
      "Não foi possível identificar a atividade", frame_numero⟩]
   else [])

/-- C5: the detector emits an UnidentifiedActivity (`Atividade Não
Identificada`) record exactly when the activity label is Unknown (the source's
`unknown` key or its display form `Desconhecido`) and the frame index is a
multiple of 100; and over 250 consecutive frames (indices 1..250) all
classified `unknown` and triggering no other rule, exactly two such records
are produced, at frames 100 and 200. -/
theorem detectar_anomalias_unidentified (fi : FrameInfo) (n : Nat) :
    ((∃ a ∈ detectar_anomalias fi n, a.tipo = "Atividade Não Identificada") ↔
      ((fi.atividade = some "unknown" ∨ fi.atividade = some "Desconhecido")
        ∧ n % 100 = 0))
  ∧ (List.range 250).flatMap
        (fun i => detectar_anomalias ⟨0, none, some "unknown"⟩ (i + 1))
      = [⟨"Atividade Não Identificada", "Não foi possível identificar a atividade", 100⟩,
         ⟨"Atividade Não Identificada", "Não foi possível identificar a atividade", 200⟩] := by
  constructor
  · unfold detectar_anomalias
    split_ifs with h1 h2 h3 <;> simp_all
  · decide

/-- Truthiness of a Python string-or-None value (`if emocao:`): `None` and the
empty string are falsy, every other string is truthy. -/
def truthyStr : Option String → Bool
  | none => false
  | some s => !(s == "")

/-- Truthiness of the `tem_face` argument (`if tem_face:`), modelled as an
optional integer: `None` and `0` are falsy (a Python bool is an int, `True` =
1 and `False` = 0). -/
def truthyInt : Option Int → Bool
  | none => false
  | some n => !(n == 0)

/-- The state of `VideoAnalysisReport` (`main_report.py` lines 34-42); the two
`datetime` fields (analysis start and end, set by `finalizar`) carry no
decision logic and are not modelled. -/
structure Report where
  total_frames : Nat
  frames_com_faces : Nat
  emocoes_detectadas : List String
  atividades_detectadas : List String
  anomalias : List Anomalia

/-- The freshly constructed report (`main_report.py` lines 34-42). -/
def report_inicial : Report := ⟨0, 0, [], [], []⟩

/-- `VideoAnalysisReport.registrar_frame` (`main_report.py` lines 44-55): the
`if tem_face:` / `if emocao:` / `if atividade:` guards are Python truthiness
tests, not None tests. -/
def registrar_frame (r : Report) (tem_face : Option Int)
    (emocao atividade : Option String) : Report :=
  { r with
    total_frames := r.total_frames + 1
    frames_com_faces :=
      if truthyInt tem_face then r.frames_com_faces + 1 else r.frames_com_faces
    emocoes_detectadas :=
      if truthyStr emocao then r.emocoes_detectadas ++ [emocao.getD ""]
      else r.emocoes_detectadas
    atividades_detectadas :=
      if truthyStr atividade then r.atividades_detectadas ++ [atividade.getD ""]
      else r.atividades_detectadas }

/-- `VideoAnalysisReport.registrar_anomalia` (`main_report.py` lines 57-64),
minus the wall-clock timestamp. -/
def registrar_anomalia (r : Report) (a : Anomalia) : Report :=
  { r with anomalias := r.anomalias ++ [a] }

/-- The arguments of one `registrar_frame` call. -/
structure FrameRecord where
  tem_face : Option Int
  emocao : Option String
  atividade : Option String

/-- A session built by a sequence of `registrar_frame` calls on a fresh
report. -/
def recordAll (frames : List FrameRecord) : Report :=
  frames.foldl (fun r f => registrar_frame r f.tem_face f.emocao f.atividade)
    report_inicial

/-- First-occurrence-order duplicate removal: the key order of a Python
`collections.Counter` (an insertion-ordered dict) built by iterating a
list. -/
def pyDedup : List String → List String
  | [] => []
  | x :: xs => x :: (pyDedup xs).filter (fun y => !(y == x))

/-- The `(key, count)` items of `collections.Counter(l)`, in the Counter's
insertion order (first occurrence first); `dict(Counter(l))` preserves exactly
this order. -/
def counterItems (l : List String) : List (String × Nat) :=
  (pyDedup l).map (fun s => (s, l.count s))

/-- Insertion step of a stable descending sort on counts: `x` goes before the
first strictly smaller count, so among equal counts earlier items keep
priority. -/
def insereDesc (x : String × Nat) : List (String × Nat) → List (String × Nat)
  | [] => [x]
  | y :: ys => if y.2 ≤ x.2 then x :: y :: ys else y :: insereDesc x ys

/-- `Counter.most_common()`: the items sorted by count descending; Python's
sort is stable, so ties keep the Counter's insertion (first-seen) order.  This
insertion sort computes the same list as the source's stable
`sorted(items, key=count, reverse=True)`. -/
def most_common (l : List String) : List (String × Nat) :=
  (counterItems l).foldr insereDesc []

theorem mem_pyDedup {a : String} : ∀ {l : List String}, a ∈ pyDedup l ↔ a ∈ l := by
  intro l
  induction l with
  | nil => simp [pyDedup]
  | cons x xs ih =>
    simp only [pyDedup, List.mem_cons, List.mem_filter, ih]
    constructor
    · rintro (rfl | ⟨h, _⟩)
      · exact Or.inl rfl
      · exact Or.inr h
    · rintro (rfl | h)
      · exact Or.inl rfl
      · by_cases hax : a = x
        · exact Or.inl hax
        · exact Or.inr ⟨h, by simp [hax]⟩

theorem nodup_pyDedup : ∀ (l : List String), (pyDedup l).Nodup := by
  intro l
  induction l with
  | nil => simp [pyDedup]
  | cons x xs ih =>
    simp only [pyDedup]
    refine List.nodup_cons.mpr ⟨fun hx => ?_, List.Nodup.filter _ ih⟩
    have := (List.mem_filter.mp hx).2
    simp at this

/-- The values of a Counter sum to the length of the underlying list. -/
theorem sum_counterItems (l : List String) :
    ((counterItems l).map Prod.snd).sum = l.length := by
  have hperm : (pyDedup l).Perm l.dedup :=
    List.perm_of_nodup_nodup_toFinset_eq (nodup_pyDedup l) l.nodup_dedup
      (by ext a; simp [List.mem_toFinset, mem_pyDedup, List.mem_dedup])
  calc ((counterItems l).map Prod.snd).sum
      = ((pyDedup l).map (fun s => l.count s)).sum := by
        simp [counterItems, List.map_map, Function.comp_def]
    _ = (l.dedup.map (fun s => l.count s)).sum := (hperm.map _).sum_eq
    _ = l.length := List.sum_map_count_dedup_eq_length l

/-- Round a rational to the nearest integer, halves to the even neighbour:
Python's `round` (and the rounding of `format`'s fixed-point specifiers),
idealized to exact rational arithmetic. -/
def roundHalfEven (m : ℚ) : ℤ :=
  if m - ⌊m⌋ < 1/2 then ⌊m⌋
  else if 1/2 < m - ⌊m⌋ then ⌊m⌋ + 1
  else if 2 ∣ ⌊m⌋ then ⌊m⌋ else ⌊m⌋ + 1

/-- Python's `round(q, nd)` / the value printed by a `:.{nd}f` format, on an
exact rational. -/
def pyRound (nd : ℕ) (q : ℚ) : ℚ := (roundHalfEven (q * 10 ^ nd) : ℚ) / 10 ^ nd

/-- One line of the per-label distribution block of the text report
(`main_report.py` lines 108-111 and 126-129): label, count and the displayed
percentage — the f-string `:5.1f` prints the percentage rounded to ONE decimal
place. -/
structure LinhaDistribuicao where
  label : String
  count : Nat
  percentual : ℚ

/-- The distribution block of the text report for one label list: iterates
`counter.most_common()` and computes `count / len(list) * 100` per line. -/
def linhas_distribuicao (l : List String) : List LinhaDistribuicao :=
  (most_common l).map (fun ec => ⟨ec.1, ec.2, pyRound 1 ((ec.2 : ℚ) / l.length * 100)⟩)

/-- The data content of `VideoAnalysisReport.gerar_relatorio_texto`
(`main_report.py` lines 70-158): every number, label and ordering the rendered
text presents, with each formatted number replaced by the exact rational the
format prints (`:.2f` rounds to 2 decimals, `:5.1f` to 1 decimal).  The
predominant-label line is printed only when the counter is non-empty, hence
`Option`.  Fixed headers, the analysed-video name and the wall-clock duration
are not modelled. -/
structure RelatorioTexto where
  total_frames : Nat
  frames_com_faces : Nat
  percentual_deteccao : ℚ
  emocoes_total : Nat
  emocoes_linhas : List LinhaDistribuicao
  emocao_predominante : Option String
  atividades_total : Nat
  atividades_linhas : List LinhaDistribuicao
  atividade_predominante : Option String
  numero_anomalias : Nat
  anomalias : List Anomalia

/-- `VideoAnalysisReport.gerar_relatorio_texto` (`main_report.py`
lines 70-158), as the data it renders. -/
def gerar_relatorio_texto (r : Report) : RelatorioTexto :=
  { total_frames := r.total_frames
    frames_com_faces := r.frames_com_faces
    percentual_deteccao :=
      pyRound 2 (if 0 < r.total_frames
        then (r.frames_com_faces : ℚ) / r.total_frames * 100 else 0)
    emocoes_total := r.emocoes_detectadas.length
    emocoes_linhas := linhas_distribuicao r.emocoes_detectadas
    emocao_predominante := ((most_common r.emocoes_detectadas).head?).map Prod.fst
    atividades_total := r.atividades_detectadas.length
    atividades_linhas := linhas_distribuicao r.atividades_detectadas
    atividade_predominante := ((most_common r.atividades_detectadas).head?).map Prod.fst
    numero_anomalias := r.anomalias.length
    anomalias := r.anomalias }

/-- The structured record built by `VideoAnalysisReport.gerar_relatorio_json`
(`main_report.py` lines 160-195) before serialization.  `distribuicao` is
`dict(counter)`: the (label, count) pairs in the Counter's insertion (i.e.
first-seen) order, with no percentages; `predominante` is
`counter.most_common(1)[0][0]` when the counter is non-empty and `None`
otherwise; `percentual_deteccao` is `round(..., 2)` with the zero-total guard.
The `informacoes_gerais` group (video name, date, duration) is not
modelled. -/
structure RelatorioJson where
  total_frames_analisados : Nat
  frames_com_faces : Nat
  percentual_deteccao : ℚ
  emocoes_total_registros : Nat
  emocoes_distribuicao : List (String × Nat)
  emocao_predominante : Option String
  atividades_total_registros : Nat
  atividades_distribuicao : List (String × Nat)
  atividade_predominante : Option String
  numero_anomalias : Nat
  detalhes : List Anomalia

/-- `VideoAnalysisReport.gerar_relatorio_json` (`main_report.py`
lines 160-195), as the structured record it serializes. -/
def gerar_relatorio_json (r : Report) : RelatorioJson :=
  { total_frames_analisados := r.total_frames
    frames_com_faces := r.frames_com_faces
    percentual_deteccao :=
      pyRound 2 (if 0 < r.total_frames
        then (r.frames_com_faces : ℚ) / r.total_frames * 100 else 0)
    emocoes_total_registros := r.emocoes_detectadas.length
    emocoes_distribuicao := counterItems r.emocoes_detectadas
    emocao_predominante := ((most_common r.emocoes_detectadas).head?).map Prod.fst
    atividades_total_registros := r.atividades_detectadas.length
    atividades_distribuicao := counterItems r.atividades_detectadas
    atividade_predominante := ((most_common r.atividades_detectadas).head?).map Prod.fst
    numero_anomalias := r.anomalias.length
    detalhes := r.anomalias }

theorem recordAll_emocoes (frames : List FrameRecord) :
    ∀ (r : Report),
      (frames.foldl (fun r f => registrar_frame r f.tem_face f.emocao f.atividade)
          r).emocoes_detectadas.length
        = r.emocoes_detectadas.length + frames.countP (fun f => truthyStr f.emocao) := by
  induction frames with
  | nil => intro r; simp
  | cons f t ih =>
    intro r
    rw [List.foldl_cons, ih]
    by_cases h : truthyStr f.emocao <;>
      (simp [registrar_frame, h, List.countP_cons]; try omega)

theorem recordAll_atividades (frames : List FrameRecord) :
    ∀ (r : Report),
      (frames.foldl (fun r f => registrar_frame r f.tem_face f.emocao f.atividade)
          r).atividades_detectadas.length
        = r.atividades_detectadas.length + frames.countP (fun f => truthyStr f.atividade) := by
  induction frames with
  | nil => intro r; simp
  | cons f t ih =>
    intro r
    rw [List.foldl_cons, ih]
    by_cases h : truthyStr f.atividade <;>
      (simp [registrar_frame, h, List.countP_cons]; try omega)

theorem recordAll_total (frames : List FrameRecord) :
    ∀ (r : Report),
      (frames.foldl (fun r f => registrar_frame r f.tem_face f.emocao f.atividade)
          r).total_frames = r.total_frames + frames.length := by
  induction frames with
  | nil => intro r; simp
  | cons f t ih =>
    intro r
    rw [List.foldl_cons, ih]
    simp [registrar_frame]
    omega

/-- C6: for every session built by a sequence of `registrar_frame` calls whose
label arguments are well-formed FrameResult fields (an enum label or null —
never the empty string, which no classifier produces), the values of the
emotion distribution sum to the number of recorded frames with a non-null
emotion label, and likewise for the activity distribution; the total frame
count is the number of calls, which neither sum is required to equal. -/
theorem soma_distribuicao (frames : List FrameRecord)
    (he : ∀ f ∈ frames, f.emocao ≠ some "")
    (ha : ∀ f ∈ frames, f.atividade ≠ some "") :
    ((gerar_relatorio_json (recordAll frames)).emocoes_distribuicao.map Prod.snd).sum
        = (frames.filter (fun f => f.emocao ≠ none)).length
  ∧ ((gerar_relatorio_json (recordAll frames)).atividades_distribuicao.map Prod.snd).sum
        = (frames.filter (fun f => f.atividade ≠ none)).length
  ∧ (gerar_relatorio_json (recordAll frames)).total_frames_analisados = frames.length := by
  refine ⟨?_, ?_, ?_⟩
  · show ((counterItems (recordAll frames).emocoes_detectadas).map Prod.snd).sum = _
    rw [sum_counterItems, recordAll, recordAll_emocoes]
    rw [← List.countP_eq_length_filter]
    simp only [report_inicial, List.length_nil, Nat.zero_add]
    refine List.countP_congr fun f hf => ?_
    have hne := he f hf
    cases hemo : f.emocao with
    | none => simp [truthyStr, hemo]
    | some s =>
      have : s ≠ "" := by rintro rfl; exact hne hemo
      simp [truthyStr, hemo, this]
  · show ((counterItems (recordAll frames).atividades_detectadas).map Prod.snd).sum = _
    rw [sum_counterItems, recordAll, recordAll_atividades]
    rw [← List.countP_eq_length_filter]
    simp only [report_inicial, List.length_nil, Nat.zero_add]
    refine List.countP_congr fun f hf => ?_
    have hne := ha f hf
    cases hatv : f.atividade with
    | none => simp [truthyStr, hatv]
    | some s =>
      have : s ≠ "" := by rintro rfl; exact hne hatv
      simp [truthyStr, hatv, this]
  · show (recordAll frames).total_frames = _
    rw [recordAll, recordAll_total]
    simp [report_inicial]

/-- A concrete three-call session used to witness `soma_distribuicao`. -/
def framesDemo : List FrameRecord :=
  [⟨some 1, some "Feliz", some "unknown"⟩,
   ⟨some 0, none, some "standing"⟩,
   ⟨none, some "Triste", none⟩]

/-- Witness for `soma_distribuicao` at a concrete session: two frames carry a
non-null emotion, two a non-null activity, and three were recorded. -/
theorem soma_distribuicao_witness :
    (((gerar_relatorio_json (recordAll framesDemo)).emocoes_distribuicao.map Prod.snd).sum
        = (framesDemo.filter (fun f => f.emocao ≠ none)).length
    ∧ ((gerar_relatorio_json (recordAll framesDemo)).atividades_distribuicao.map Prod.snd).sum
        = (framesDemo.filter (fun f => f.atividade ≠ none)).length
    ∧ (gerar_relatorio_json (recordAll framesDemo)).total_frames_analisados = framesDemo.length)
  ∧ ((gerar_relatorio_json (recordAll framesDemo)).emocoes_distribuicao.map Prod.snd).sum = 2
  ∧ (gerar_relatorio_json (recordAll framesDemo)).total_frames_analisados = 3 :=
  ⟨soma_distribuicao framesDemo (by decide) (by decide), by decide, by decide⟩

/-- C7: rendering the structured report of a session with zero recorded frames
raises no division error (the `total_frames > 0` guard makes the detection
percentage 0) and yields a null predominant label and an empty distribution
for both emotions and activities. -/
theorem relatorio_sessao_vazia :
    (gerar_relatorio_json report_inicial).percentual_deteccao = 0
  ∧ (gerar_relatorio_json report_inicial).emocao_predominante = none
  ∧ (gerar_relatorio_json report_inicial).atividade_predominante = none
  ∧ (gerar_relatorio_json report_inicial).emocoes_distribuicao = []
  ∧ (gerar_relatorio_json report_inicial).atividades_distribuicao = []
  ∧ (gerar_relatorio_json report_inicial).total_frames_analisados = 0 := by
  refine ⟨?_, by decide, by decide, by decide, by decide, by decide⟩
  show pyRound 2 (if 0 < (0 : Nat) then ((0 : Nat) : ℚ) / (0 : Nat) * 100 else 0) = 0
  norm_num [pyRound, roundHalfEven]

/-- C10: `registrar_frame` tests its arguments for truthiness, not for null: a
call with empty-string labels and a falsy has-face value such as `0`
increments the frame total but leaves the two label lists (hence both
distributions) and the frames-with-face counter unchanged — exactly the state
transition of a call with all fields null. -/
theorem registrar_frame_truthiness (r : Report) :
    registrar_frame r (some 0) (some "") (some "")
        = registrar_frame r none none none
  ∧ (registrar_frame r (some 0) (some "") (some "")).total_frames = r.total_frames + 1
  ∧ (registrar_frame r (some 0) (some "") (some "")).frames_com_faces = r.frames_com_faces
  ∧ (registrar_frame r (some 0) (some "") (some "")).emocoes_detectadas
        = r.emocoes_detectadas
  ∧ (registrar_frame r (some 0) (some "") (some "")).atividades_detectadas
        = r.atividades_detectadas
  ∧ counterItems (registrar_frame r (some 0) (some "") (some "")).emocoes_detectadas
        = counterItems r.emocoes_detectadas
  ∧ counterItems (registrar_frame r (some 0) (some "") (some "")).atividades_detectadas
        = counterItems r.atividades_detectadas := by
  refine ⟨?_, ?_, ?_, ?_, ?_, ?_, ?_⟩ <;>
    simp [registrar_frame, truthyInt, truthyStr]

theorem mem_insereDesc {x a : String × Nat} :
    ∀ {acc : List (String × Nat)}, a ∈ insereDesc x acc ↔ a = x ∨ a ∈ acc := by
  intro acc
  induction acc with
  | nil => simp [insereDesc]
  | cons y ys ih =>
    simp only [insereDesc]
    split_ifs with h
    · simp [List.mem_cons]
    · simp only [List.mem_cons, ih]
      tauto

theorem pairwise_insereDesc (Q : (String × Nat) → (String × Nat) → Prop)
    (x : String × Nat) :
    ∀ (acc : List (String × Nat)),
      acc.Pairwise (fun a b => b.2 < a.2 ∨ (a.2 = b.2 ∧ Q a b)) →
      (∀ y ∈ acc, Q x y) →
      (insereDesc x acc).Pairwise (fun a b => b.2 < a.2 ∨ (a.2 = b.2 ∧ Q a b)) := by
  intro acc
  induction acc with
  | nil =>
    intro _ _
    simp [insereDesc]
  | cons y ys ih =>
    intro hp hq
    obtain ⟨hy, hys⟩ := List.pairwise_cons.mp hp
    simp only [insereDesc]
    split_ifs with h
    · refine List.pairwise_cons.mpr ⟨?_, List.pairwise_cons.mpr ⟨hy, hys⟩⟩
      intro z hz
      rcases List.mem_cons.mp hz with rfl | hzys
      · rcases lt_or_eq_of_le h with h1 | h1
        · exact Or.inl h1
        · exact Or.inr ⟨h1.symm, hq _ (List.mem_cons_self _ _)⟩
      · have hz2 : z.2 ≤ y.2 := by
          rcases hy z hzys with h2 | ⟨h2, _⟩
          · exact le_of_lt h2
          · exact le_of_eq h2.symm
        rcases lt_or_eq_of_le (le_trans hz2 h) with h3 | h3
        · exact Or.inl h3
        · exact Or.inr ⟨h3.symm, hq z (List.mem_cons_of_mem _ hzys)⟩
    · refine List.pairwise_cons.mpr
        ⟨?_, ih hys (fun z hz => hq z (List.mem_cons_of_mem _ hz))⟩
      intro z hz
      rcases mem_insereDesc.mp hz with rfl | hzys
      · exact Or.inl (not_le.mp h)
      · exact hy z hzys

theorem pairwise_foldr_insereDesc (Q : (String × Nat) → (String × Nat) → Prop) :
    ∀ (d : List (String × Nat)), d.Pairwise Q →
      (d.foldr insereDesc []).Pairwise (fun a b => b.2 < a.2 ∨ (a.2 = b.2 ∧ Q a b))
      ∧ ∀ a, a ∈ d.foldr insereDesc [] ↔ a ∈ d := by
  intro d
  induction d with
  | nil => intro _; exact ⟨List.Pairwise.nil, by simp⟩
  | cons x t ih =>
    intro hp
    obtain ⟨hx, ht⟩ := List.pairwise_cons.mp hp
    obtain ⟨ihp, ihm⟩ := ih ht
    refine ⟨?_, ?_⟩
    · rw [List.foldr_cons]
      exact pairwise_insereDesc Q x _ ihp (fun y hy => hx y ((ihm y).mp hy))
    · intro a
      rw [List.foldr_cons, mem_insereDesc, List.mem_cons, ihm a]

theorem pairwise_indexOf_lt :
    ∀ (l : List String), l.Nodup →
      l.Pairwise (fun s t => l.indexOf s < l.indexOf t) := by
  intro l
  induction l with
  | nil => intro _; exact List.Pairwise.nil
  | cons x xs ih =>
    intro h
    obtain ⟨hx, hxs⟩ := List.nodup_cons.mp h
    refine List.pairwise_cons.mpr ⟨?_, ?_⟩
    · intro t ht
      have htx : x ≠ t := fun hh => hx (hh ▸ ht)
      rw [List.indexOf_cons_self, List.indexOf_cons_ne _ htx]
      exact Nat.succ_pos _
    · refine (ih hxs).imp_of_mem ?_
      intro a b ha hb hab
      have hax : x ≠ a := fun hh => hx (hh ▸ ha)
      have hbx : x ≠ b := fun hh => hx (hh ▸ hb)
      rw [List.indexOf_cons_ne _ hax, List.indexOf_cons_ne _ hbx]
      exact Nat.succ_lt_succ hab

/-- `most_common` ranks the Counter items descending by count, breaking ties
by first-occurrence order, and is a permutation of the Counter items. -/
theorem most_common_ranking (l : List String) :
    (most_common l).Pairwise (fun a b => b.2 < a.2
      ∨ (a.2 = b.2 ∧ (pyDedup l).indexOf a.1 < (pyDedup l).indexOf b.1))
  ∧ ∀ a, a ∈ most_common l ↔ a ∈ counterItems l := by
  have hQ : (counterItems l).Pairwise
      (fun a b => (pyDedup l).indexOf a.1 < (pyDedup l).indexOf b.1) := by
    rw [counterItems, List.pairwise_map]
    exact pairwise_indexOf_lt _ (nodup_pyDedup l)
  exact pairwise_foldr_insereDesc _ _ hQ

/-- Three recorded frames with emotion labels [Feliz, Feliz, Triste]
(Happy, Happy, Sad), the concrete example of C8. -/
def framesHHS : List FrameRecord :=
  [⟨some 1, some "Feliz", none⟩, ⟨some 1, some "Feliz", none⟩,
   ⟨some 1, some "Triste", none⟩]

/-- Three recorded frames with emotion labels [Triste, Feliz, Feliz]: the most
frequent label is not the first seen. -/
def framesSHH : List FrameRecord :=
  [⟨some 1, some "Triste", none⟩, ⟨some 1, some "Feliz", none⟩,
   ⟨some 1, some "Feliz", none⟩]

/-- C8 counterexample: the claim fails on the code in two ways.  The
structured rendering's distribution is `dict(Counter)` in first-seen order,
not ranked descending by count: for recorded emotions [Triste, Feliz, Feliz]
it lists (Triste, 1) before (Feliz, 2).  And in the claim's own
[Happy, Happy, Sad] example the text rendering displays the per-label
percentages rounded to one decimal place — 66.7 and 33.3, not 66.67 and
33.33. -/
theorem ranking_relatorios_contraexemplo :
    (gerar_relatorio_json (recordAll framesSHH)).emocoes_distribuicao
        = [("Triste", 1), ("Feliz", 2)]
  ∧ ¬ (gerar_relatorio_json (recordAll framesSHH)).emocoes_distribuicao.Pairwise
        (fun a b => b.2 ≤ a.2)
  ∧ (gerar_relatorio_texto (recordAll framesHHS)).emocoes_linhas.map
        LinhaDistribuicao.percentual = [667/10, 333/10]
  ∧ (gerar_relatorio_texto (recordAll framesHHS)).emocoes_linhas.map
        LinhaDistribuicao.percentual ≠ [6667/100, 3333/100] := by
  have hdist : (gerar_relatorio_json (recordAll framesSHH)).emocoes_distribuicao
      = [("Triste", 1), ("Feliz", 2)] := by decide
  have hperc : (gerar_relatorio_texto (recordAll framesHHS)).emocoes_linhas.map
      LinhaDistribuicao.percentual = [667/10, 333/10] := by
    have hl : (recordAll framesHHS).emocoes_detectadas = ["Feliz", "Feliz", "Triste"] := by
      decide
    have hmc : most_common ["Feliz", "Feliz", "Triste"]
        = [("Feliz", 2), ("Triste", 1)] := by decide
    show (linhas_distribuicao (recordAll framesHHS).emocoes_detectadas).map
        LinhaDistribuicao.percentual = _
    rw [hl]
    simp only [linhas_distribuicao, hmc, List.map_map, List.map_cons, List.map_nil,
      Function.comp_apply, List.length_cons, List.length_nil]
    norm_num [pyRound, roundHalfEven]
  refine ⟨hdist, ?_, hperc, ?_⟩
  · intro h
    rw [hdist] at h
    have h2 := (List.pairwise_cons.mp h).1 ("Feliz", 2) (List.mem_cons_self _ _)
    simp at h2
  · intro hEq
    rw [hperc] at hEq
    simp only [List.cons.injEq] at hEq
    obtain ⟨h1, -⟩ := hEq
    norm_num at h1

/-- C8 (amended, forced by `ranking_relatorios_contraexemplo`): in the TEXT
rendering each distribution is ranked descending by count with ties broken by
first-seen order and the predominant label is the label of the first ranked
line (hence most frequent under that tie-break); the STRUCTURED rendering
instead lists each distribution in first-seen order, with the same predominant
label.  The concrete example: recording three frames with emotion labels
[Feliz, Feliz, Triste] and no anomalies yields distribution
{Feliz: 2, Triste: 1}, predominant Feliz, text percentages 66.7% and 33.3%
(one decimal place, as the `:5.1f` format prints), and total_frames = 3. -/
theorem ranking_relatorios (r : Report) :
    (gerar_relatorio_texto r).emocoes_linhas.Pairwise
      (fun a b => b.count < a.count ∨ (a.count = b.count
        ∧ (pyDedup r.emocoes_detectadas).indexOf a.label
            < (pyDedup r.emocoes_detectadas).indexOf b.label))
  ∧ (gerar_relatorio_texto r).atividades_linhas.Pairwise
      (fun a b => b.count < a.count ∨ (a.count = b.count
        ∧ (pyDedup r.atividades_detectadas).indexOf a.label
            < (pyDedup r.atividades_detectadas).indexOf b.label))
  ∧ (gerar_relatorio_texto r).emocao_predominante
      = ((gerar_relatorio_texto r).emocoes_linhas.head?).map LinhaDistribuicao.label
  ∧ (gerar_relatorio_json r).emocao_predominante
      = (gerar_relatorio_texto r).emocao_predominante
  ∧ (gerar_relatorio_json r).emocoes_distribuicao.map Prod.fst
      = pyDedup r.emocoes_detectadas
  ∧ (gerar_relatorio_json r).atividades_distribuicao.map Prod.fst
      = pyDedup r.atividades_detectadas
  ∧ (gerar_relatorio_json (recordAll framesHHS)).emocoes_distribuicao
      = [("Feliz", 2), ("Triste", 1)]
  ∧ (gerar_relatorio_json (recordAll framesHHS)).emocao_predominante = some "Feliz"
  ∧ (gerar_relatorio_texto (recordAll framesHHS)).emocoes_linhas.map
        (fun li => (li.label, li.count)) = [("Feliz", 2), ("Triste", 1)]
  ∧ (gerar_relatorio_texto (recordAll framesHHS)).emocoes_linhas.map
        LinhaDistribuicao.percentual = [667/10, 333/10]
  ∧ (gerar_relatorio_texto (recordAll framesHHS)).total_frames = 3
  ∧ (gerar_relatorio_json (recordAll framesHHS)).numero_anomalias = 0 := by
  refine ⟨?_, ?_, ?_, rfl, ?_, ?_, by decide, by decide, by decide, ?_, by decide, by decide⟩
  · show (linhas_distribuicao r.emocoes_detectadas).Pairwise _
    simp only [linhas_distribuicao, List.pairwise_map]
    exact (most_common_ranking r.emocoes_detectadas).1
  · show (linhas_distribuicao r.atividades_detectadas).Pairwise _
    simp only [linhas_distribuicao, List.pairwise_map]
    exact (most_common_ranking r.atividades_detectadas).1
  · show ((most_common r.emocoes_detectadas).head?).map Prod.fst
        = ((linhas_distribuicao r.emocoes_detectadas).head?).map LinhaDistribuicao.label
    simp only [linhas_distribuicao, List.head?_map, Option.map_map]
    rfl
  · show (counterItems r.emocoes_detectadas).map Prod.fst = _
    simp [counterItems, List.map_map, Function.comp_def]
  · show (counterItems r.atividades_detectadas).map Prod.fst = _
    simp [counterItems, List.map_map, Function.comp_def]
  · have hl : (recordAll framesHHS).emocoes_detectadas = ["Feliz", "Feliz", "Triste"] := by
      decide
    have hmc : most_common ["Feliz", "Feliz", "Triste"]
        = [("Feliz", 2), ("Triste", 1)] := by decide
    show (linhas_distribuicao (recordAll framesHHS).emocoes_detectadas).map
        LinhaDistribuicao.percentual = _
    rw [hl]
    simp only [linhas_distribuicao, hmc, List.map_map, List.map_cons, List.map_nil,
      Function.comp_apply, List.length_cons, List.length_nil]
    norm_num [pyRound, roundHalfEven]

/-- C9 counterexample: "every percentage is rounded to exactly 2 decimal
places in both renderings" is false — for emotions [Feliz, Feliz, Triste] the
text rendering displays 66.7 (one decimal), although the 2-decimal rounding of
the underlying ratio is 66.67 — and "the label ranking is identical between
the two renderings" is false — for emotions [Triste, Feliz, Feliz] the text
rendering ranks Feliz first while the structured rendering lists Triste
first. -/
theorem consistencia_relatorios_contraexemplo :
    (gerar_relatorio_texto (recordAll framesHHS)).emocoes_linhas.map
        LinhaDistribuicao.percentual = [667/10, 333/10]
  ∧ pyRound 2 ((2 : ℚ) / 3 * 100) = 6667/100
  ∧ ((667 : ℚ)/10) ≠ 6667/100
  ∧ (gerar_relatorio_texto (recordAll framesSHH)).emocoes_linhas.map
        LinhaDistribuicao.label = ["Feliz", "Triste"]
  ∧ (gerar_relatorio_json (recordAll framesSHH)).emocoes_distribuicao.map
        Prod.fst = ["Triste", "Feliz"]
  ∧ (["Feliz", "Triste"] : List String) ≠ ["Triste", "Feliz"] := by
  refine ⟨?_, by norm_num [pyRound, roundHalfEven], by norm_num, by decide, by decide, by decide⟩
  have hl : (recordAll framesHHS).emocoes_detectadas = ["Feliz", "Feliz", "Triste"] := by
    decide
  have hmc : most_common ["Feliz", "Feliz", "Triste"]
      = [("Feliz", 2), ("Triste", 1)] := by decide
  show (linhas_distribuicao (recordAll framesHHS).emocoes_detectadas).map
      LinhaDistribuicao.percentual = _
  rw [hl]
  simp only [linhas_distribuicao, hmc, List.map_map, List.map_cons, List.map_nil,
    Function.comp_apply, List.length_cons, List.length_nil]
  norm_num [pyRound, roundHalfEven]

/-- C9 (amended, forced by `consistencia_relatorios_contraexemplo`): the two
renderings present the same data wherever they overlap.  The detection
percentage is the same 2-decimal rounding of the same ratio in both; the
predominant labels, frame totals, registration totals and anomaly details
agree; the text distribution lines carry exactly the `most_common`
(count-descending, first-seen-tie) ranking while the structured distribution
lists the same items in first-seen order; and the per-label percentages appear
only in the text rendering, rounded to ONE decimal place. -/
theorem consistencia_relatorios (r : Report) :
    (gerar_relatorio_texto r).percentual_deteccao
        = (gerar_relatorio_json r).percentual_deteccao
  ∧ (gerar_relatorio_texto r).percentual_deteccao
      = pyRound 2 (if 0 < r.total_frames
          then (r.frames_com_faces : ℚ) / r.total_frames * 100 else 0)
  ∧ (gerar_relatorio_texto r).emocao_predominante
        = (gerar_relatorio_json r).emocao_predominante
  ∧ (gerar_relatorio_texto r).atividade_predominante
        = (gerar_relatorio_json r).atividade_predominante
  ∧ (gerar_relatorio_texto r).total_frames
        = (gerar_relatorio_json r).total_frames_analisados
  ∧ (gerar_relatorio_texto r).frames_com_faces
        = (gerar_relatorio_json r).frames_com_faces
  ∧ (gerar_relatorio_texto r).emocoes_total
        = (gerar_relatorio_json r).emocoes_total_registros
  ∧ (gerar_relatorio_texto r).atividades_total
        = (gerar_relatorio_json r).atividades_total_registros
  ∧ (gerar_relatorio_texto r).numero_anomalias
        = (gerar_relatorio_json r).numero_anomalias
  ∧ (gerar_relatorio_texto r).anomalias = (gerar_relatorio_json r).detalhes
  ∧ (gerar_relatorio_texto r).emocoes_linhas.map (fun li => (li.label, li.count))
        = most_common r.emocoes_detectadas
  ∧ (gerar_relatorio_texto r).atividades_linhas.map (fun li => (li.label, li.count))
        = most_common r.atividades_detectadas
  ∧ (gerar_relatorio_texto r).emocoes_linhas.map LinhaDistribuicao.percentual
        = (most_common r.emocoes_detectadas).map
            (fun ec => pyRound 1 ((ec.2 : ℚ) / r.emocoes_detectadas.length * 100))
  ∧ (∀ a, a ∈ most_common r.emocoes_detectadas
        ↔ a ∈ (gerar_relatorio_json r).emocoes_distribuicao) := by
  refine ⟨rfl, rfl, rfl, rfl, rfl, rfl, rfl, rfl, rfl, rfl, ?_, ?_, ?_, ?_⟩
  · show (linhas_distribuicao r.emocoes_detectadas).map _ = _
    simp only [linhas_distribuicao, List.map_map]
    exact (List.map_congr_left fun a _ => rfl).trans (List.map_id _)
  · show (linhas_distribuicao r.atividades_detectadas).map _ = _
    simp only [linhas_distribuicao, List.map_map]
    exact (List.map_congr_left fun a _ => rfl).trans (List.map_id _)
  · show (linhas_distribuicao r.emocoes_detectadas).map _ = _
    simp only [linhas_distribuicao, List.map_map]
    rfl
  · exact (most_common_ranking r.emocoes_detectadas).2
